import Mathlib

/-!
Verification of the streaming normalization and cost-accounting core of the
`python-sidecar` backend gateway.  Python functions from
`openai_client.py`, `claude_client.py` and `main.py` are shallowly embedded
as Lean definitions: provider streams become lists of canonical events,
monetary amounts become exact rationals, and the possibility of a provider
failure mid-stream is made explicit by an optional failure point.
-/

namespace PmSidecar

/-- A canonical streaming event, as produced by both provider clients:
a content delta, a terminal usage event (whose attached cost is `none`
until the normalizer adds it), or a terminal error event. -/
inductive StreamEvent where
  | content_block_delta (text : String)
  | message_stop (input_tokens output_tokens : Nat) (cost : Option ℚ)
  | error (msg : String)
  deriving DecidableEq, Repr

/-- A chat message dictionary: role and content. -/
structure ChatMsg where
  role : String
  content : String
  deriving DecidableEq, Repr

/-- Number of words of a string under Python `str.split()` semantics:
the number of maximal runs of non-whitespace characters. -/
def count_words_aux : List Char → Bool → Nat
  | [], _ => 0
  | c :: cs, in_word =>
    if c.isWhitespace then count_words_aux cs false
    else (if in_word then 0 else 1) + count_words_aux cs true

/-- `word_count s` embeds Python `len(s.split())`. -/
def word_count (s : String) : Nat :=
  count_words_aux s.data false

/-- Python `int()` applied to a real value: truncation toward zero. -/
def py_int (x : ℚ) : ℤ :=
  if 0 ≤ x then ⌊x⌋ else ⌈x⌉

/-- Python truthiness of an optional string (`None` and `""` are falsy). -/
def truthy : Option String → Bool
  | some s => s != ""
  | none => false

namespace OpenAIClient

/-- The `pricing` dict of `OpenAIClient.calculate_cost`, with the per-token
rates as exact rationals (model, (input rate, output rate)). -/
def pricing : List (String × ℚ × ℚ) :=
  [("gpt-5", (1.25 / 1000000, 10.0 / 1000000)),
   ("gpt-5-mini", (0.25 / 1000000, 1.0 / 1000000)),
   ("gpt-5-nano", (0.05 / 1000000, 0.40 / 1000000)),
   ("gpt-4-turbo-preview", (10.0 / 1000000, 30.0 / 1000000)),
   ("gpt-4-turbo", (10.0 / 1000000, 30.0 / 1000000)),
   ("gpt-4", (30.0 / 1000000, 60.0 / 1000000)),
   ("gpt-3.5-turbo", (0.5 / 1000000, 1.5 / 1000000)),
   ("gpt-4o", (5.0 / 1000000, 15.0 / 1000000)),
   ("gpt-4o-mini", (0.15 / 1000000, 0.6 / 1000000))]

/-- `pricing.get(model, pricing["gpt-5"])`: table lookup with the gpt-5
entry as hard-coded default. -/
def lookup_pricing (model : String) : ℚ × ℚ :=
  match pricing.find? (fun e => e.1 == model) with
  | some e => e.2
  | none => (1.25 / 1000000, 10.0 / 1000000)

/-- `OpenAIClient.calculate_cost(input_tokens, output_tokens, model)`. -/
def calculate_cost (input_tokens output_tokens : Nat) (model : String) : ℚ :=
  (input_tokens : ℚ) * (lookup_pricing model).1 +
    (output_tokens : ℚ) * (lookup_pricing model).2

/-- `full_messages`: the optional system prompt prepended to the messages. -/
def full_messages (system : Option String) (messages : List ChatMsg) : List ChatMsg :=
  (match system with
   | some s => [ChatMsg.mk "system" s]
   | none => []) ++ messages

/-- The contents actually yielded from the native chunks: a chunk whose
`delta.content` is `None` (here `none`) or empty is skipped. -/
def yielded_contents (chunks : List (Option String)) : List String :=
  chunks.filterMap fun c =>
    match c with
    | some s => if s == "" then none else some s
    | none => none

/-- `total_content`, the accumulated output text. -/
def total_content (chunks : List (Option String)) : String :=
  String.join (yielded_contents chunks)

/-- `int(sum(len(msg.get("content", "").split()) * 1.3 for msg in full_messages))`. -/
def input_tokens_est (msgs : List ChatMsg) : Nat :=
  (py_int ((msgs.map fun m => (word_count m.content : ℚ) * 1.3).sum)).toNat

/-- `int(len(total_content.split()) * 1.3)`. -/
def output_tokens_est (chunks : List (Option String)) : Nat :=
  (py_int ((word_count (total_content chunks) : ℚ) * 1.3)).toNat

/-- `OpenAIClient.chat_stream`, embedded over the native chunk contents.
`failure = some (k, msg)` models an exception raised after `k` native
chunks were consumed (before the terminal usage event is yielded), caught
by the `except` clause which yields a single error event; `failure = none`
is a clean run ending with the estimated-usage terminal event. -/
def chat_stream (messages : List ChatMsg) (system : Option String)
    (chunks : List (Option String)) (failure : Option (Nat × String)) :
    List StreamEvent :=
  match failure with
  | none =>
      (yielded_contents chunks).map StreamEvent.content_block_delta ++
        [StreamEvent.message_stop (input_tokens_est (full_messages system messages))
          (output_tokens_est chunks) none]
  | some (k, msg) =>
      (yielded_contents (chunks.take k)).map StreamEvent.content_block_delta ++
        [StreamEvent.error msg]

end OpenAIClient

namespace ClaudeClient

/-- The `pricing` dict of `ClaudeClient.calculate_cost`. -/
def pricing : List (String × ℚ × ℚ) :=
  [("claude-3-5-sonnet-20241022", (3.0 / 1000000, 15.0 / 1000000)),
   ("claude-3-opus-20240229", (15.0 / 1000000, 75.0 / 1000000)),
   ("claude-3-5-haiku-20241022", (1.0 / 1000000, 5.0 / 1000000))]

/-- `pricing.get(model, pricing["claude-3-5-sonnet-20241022"])`. -/
def lookup_pricing (model : String) : ℚ × ℚ :=
  match pricing.find? (fun e => e.1 == model) with
  | some e => e.2
  | none => (3.0 / 1000000, 15.0 / 1000000)

/-- `ClaudeClient.calculate_cost(input_tokens, output_tokens, model)`. -/
def calculate_cost (input_tokens output_tokens : Nat) (model : String) : ℚ :=
  (input_tokens : ℚ) * (lookup_pricing model).1 +
    (output_tokens : ℚ) * (lookup_pricing model).2

/-- `ClaudeClient.chat_stream`: every text of the native `text_stream` is
yielded as a content delta, followed by a terminal usage event with the
provider-reported exact counts.  `failure = some (k, msg)` models an
exception after `k` texts, answered by a single error event. -/
def chat_stream (texts : List String) (final_input final_output : Nat)
    (failure : Option (Nat × String)) : List StreamEvent :=
  match failure with
  | none =>
      texts.map StreamEvent.content_block_delta ++
        [StreamEvent.message_stop final_input final_output none]
  | some (k, msg) =>
      (texts.take k).map StreamEvent.content_block_delta ++
        [StreamEvent.error msg]

end ClaudeClient

/-! ## The streaming normalizer and the transport frames (`main.py`) -/

/-- A newline-delimited SSE frame of the transport boundary: either the
initial conversation-id frame of `/chat/stream` or a canonical event. -/
inductive Frame where
  | conversation_id (id : String)
  | event (e : StreamEvent)
  deriving DecidableEq, Repr

/-- `request.conversation_id or f"conv-{os.urandom(8).hex()}"`: the
caller-supplied id when truthy, otherwise the freshly generated one. -/
def resolve_conversation_id (provided : Option String) (fresh : String) : String :=
  match provided with
  | some s => if s == "" then fresh else s
  | none => fresh

/-- The single transformation of the streaming normalizer: on a
`message_stop` chunk carrying usage, compute the cost with the client's
`calculate_cost` and attach it (`chunk["cost"] = cost`); every other chunk
is left untouched. -/
def add_cost (cost_fn : Nat → Nat → String → ℚ) (model : String) :
    StreamEvent → StreamEvent
  | StreamEvent.message_stop i o _ =>
      StreamEvent.message_stop i o (some (cost_fn i o model))
  | e => e

/-- The chunk-for-chunk body of the normalizing loop of
`chat_stream.generate` / `generate_framework_stream.generate`. -/
def normalize_stream (cost_fn : Nat → Nat → String → ℚ) (model : String)
    (upstream : List StreamEvent) : List StreamEvent :=
  upstream.map (add_cost cost_fn model)

/-- The `generate()` coroutine of `POST /chat/stream`: the conversation-id
frame first, then each upstream chunk normalized with the OpenAI client's
cost table and forwarded in arrival order. -/
def chat_stream_generate (conversation_id : String) (model : String)
    (upstream : List StreamEvent) : List Frame :=
  Frame.conversation_id conversation_id ::
    (normalize_stream OpenAIClient.calculate_cost model upstream).map Frame.event

/-! ## The prompt assembler and framework generation (`main.py`) -/

/-- A context document of a framework-generation request. -/
structure ContextDocument where
  id : String
  name : String
  type : String
  content : String
  url : Option String
  deriving DecidableEq, Repr

/-- A framework definition as loaded from disk: the fields `main.py`
reads, optional exactly where the code uses `dict.get`. -/
structure Framework where
  id : String
  name : String
  system_prompt : Option String
  example_output : Option String
  guiding_questions : Option (List String)
  deriving DecidableEq, Repr

/-- The request body of `POST /generate-framework` (and its `/stream`). -/
structure GenerateFrameworkRequest where
  project_id : String
  framework_id : String
  context_documents : List ContextDocument
  user_prompt : String
  api_key : String
  model : String
  deriving DecidableEq, Repr

/-- The per-document header: `## Document: {name}`, plus the source line
for url documents with a truthy url, or the PDF marker. -/
def doc_header (doc : ContextDocument) : String :=
  let h := "## Document: " ++ doc.name
  if doc.type == "url" && truthy doc.url then h ++ "\nSource: " ++ doc.url.getD ""
  else if doc.type == "pdf" then h ++ "\n(PDF document)"
  else h

/-- `"\n\n---\n\n".join(context_sections) if context_sections else
"No context documents provided."`. -/
def assembled_context (docs : List ContextDocument) : String :=
  if docs.isEmpty then "No context documents provided."
  else String.intercalate "\n\n---\n\n"
    (docs.map fun d => doc_header d ++ "\n\n" ++ d.content)

/-- Python truthiness of `framework.get("guiding_questions")`. -/
def gq_truthy (f : Framework) : Bool :=
  match f.guiding_questions with
  | some qs => !qs.isEmpty
  | none => false

/-- The system prompt: `framework.get("system_prompt", "")` with the
truthy `example_output` appended under the labeled section. -/
def build_system_prompt (f : Framework) : String :=
  let sp := f.system_prompt.getD ""
  match f.example_output with
  | some ex => if ex != "" then sp ++ "\n\n## Example Output Format:\n\n" ++ ex else sp
  | none => sp

/-- `request.user_prompt or f"Generate a {framework['name']} based on the
context provided above."`. -/
def resolved_instruction (f : Framework) (instr : String) : String :=
  if instr == "" then "Generate a " ++ f.name ++ " based on the context provided above."
  else instr

/-- The `user_prompt_parts` list: context header, assembled context, task
header and resolved instruction, with the guiding questions appended only
when the raw instruction is shorter than 50 characters and the template's
question list is truthy. -/
def user_prompt_parts (f : Framework) (docs : List ContextDocument)
    (instr : String) : List String :=
  let base := ["# Context Documents", assembled_context docs, "", "# Task",
    resolved_instruction f instr]
  if instr.length < 50 ∧ gq_truthy f = true then
    base ++ ("\n## Consider These Questions:" ::
      (f.guiding_questions.getD []).map fun q => "- " ++ q)
  else base

/-- `user_prompt = "\n".join(user_prompt_parts)`. -/
def build_user_prompt (f : Framework) (docs : List ContextDocument)
    (instr : String) : String :=
  String.intercalate "\n" (user_prompt_parts f docs instr)

/-- One step of a framework-generation run, recording both the frames
yielded to the transport and the provider-side effects (client
construction and the provider call) in program order. -/
inductive TraceStep where
  | frame (f : Frame)
  | client_init
  | provider_call
  deriving DecidableEq, Repr

/-- The `generate()` coroutine of `POST /generate-framework/stream`.
`get_framework` is the framework-loader collaborator and `adapter` the
provider stream as a function of the assembled system and user prompts.
On a missing framework the coroutine yields one error frame and returns,
before the client is constructed or the provider called. -/
def generate_framework_stream (get_framework : String → Option Framework)
    (adapter : String → String → List StreamEvent)
    (req : GenerateFrameworkRequest) : List TraceStep :=
  match get_framework req.framework_id with
  | none =>
      [TraceStep.frame (Frame.event (StreamEvent.error
        ("Framework " ++ req.framework_id ++ " not found")))]
  | some fw =>
      TraceStep.client_init :: TraceStep.provider_call ::
        (normalize_stream OpenAIClient.calculate_cost req.model
          (adapter (build_system_prompt fw)
            (build_user_prompt fw req.context_documents req.user_prompt))).map
          (fun e => TraceStep.frame (Frame.event e))

/-- The non-streaming provider result consumed by `generate_framework`. -/
structure ChatResult where
  content : String
  input_tokens : Nat
  output_tokens : Nat
  model : String
  stop_reason : String
  deriving DecidableEq, Repr

/-- The JSON body returned by `POST /generate-framework`. -/
structure FrameworkResponse where
  framework_id : String
  generated_content : String
  input_tokens : Nat
  output_tokens : Nat
  cost : ℚ
  model : String
  deriving DecidableEq, Repr

/-- `POST /generate-framework` (non-streaming): the provider-side effect
trace paired with either the 404 template-not-found error — raised before
the client is constructed — or the cost-annotated response. -/
def generate_framework (get_framework : String → Option Framework)
    (chat : String → String → ChatResult)
    (req : GenerateFrameworkRequest) :
    List TraceStep × Except (Nat × String) FrameworkResponse :=
  match get_framework req.framework_id with
  | none =>
      ([], Except.error (404, "Framework '" ++ req.framework_id ++ "' not found"))
  | some fw =>
      let r := chat (build_system_prompt fw)
        (build_user_prompt fw req.context_documents req.user_prompt)
      ([TraceStep.client_init, TraceStep.provider_call],
        Except.ok
          ⟨req.framework_id, r.content, r.input_tokens, r.output_tokens,
            OpenAIClient.calculate_cost r.input_tokens r.output_tokens r.model,
            r.model⟩)

/-! ## Event and frame classifiers used by the statements -/

/-- Terminal events: usage and error; content deltas are non-terminal. -/
def is_terminal : StreamEvent → Bool
  | StreamEvent.content_block_delta _ => false
  | _ => true

/-- Usage events. -/
def is_usage : StreamEvent → Bool
  | StreamEvent.message_stop _ _ _ => true
  | _ => false

/-- Content-delta events. -/
def is_content : StreamEvent → Bool
  | StreamEvent.content_block_delta _ => true
  | _ => false

/-- A content delta with non-empty text (trivially true of other events). -/
def content_nonempty : StreamEvent → Bool
  | StreamEvent.content_block_delta s => s != ""
  | _ => true

/-- Every event strictly before the last one is non-terminal: this is the
terminal invariant (at most one terminal event, only in last position,
hence never a usage event after an error event). -/
def terminal_only_last (events : List StreamEvent) : Prop :=
  ∀ e ∈ events.dropLast, is_terminal e = false

/-- The canonical event carried by a transport frame, if any. -/
def frame_event : Frame → Option StreamEvent
  | Frame.event e => some e
  | _ => none

/-- The correlation identifier carried by a trace step, if any. -/
def step_conv_id : TraceStep → Option String
  | TraceStep.frame (Frame.conversation_id i) => some i
  | _ => none

/-- The canonical event carried by a trace step, if any. -/
def step_event : TraceStep → Option StreamEvent
  | TraceStep.frame f => frame_event f
  | _ => none

/-! ### Concrete objects used by witnesses and counterexamples -/

/-- A concrete framework template with guiding questions. -/
def demo_framework : Framework :=
  ⟨"prd", "PRD", some "You are a PM.", none, some ["Q1?", "Q2?"]⟩

/-- A concrete framework loader knowing only `demo_framework`. -/
def demo_get_framework : String → Option Framework :=
  fun s => if s == "prd" then some demo_framework else none

/-- A concrete provider adapter emitting one delta and one usage event. -/
def demo_adapter : String → String → List StreamEvent :=
  fun _ _ => [StreamEvent.content_block_delta "x", StreamEvent.message_stop 5 7 none]

/-- A concrete framework-generation request for the known framework. -/
def demo_request : GenerateFrameworkRequest :=
  ⟨"p1", "prd", [], "", "key", "gpt-5"⟩

/-- Python truthiness of a native chunk's delta content. -/
def chunk_truthy : Option String → Bool
  | some s => s != ""
  | none => false

/-- The transport frame carried by a trace step, if any. -/
def step_frame : TraceStep → Option Frame
  | TraceStep.frame f => some f
  | _ => none

/-- A concrete non-streaming provider result. -/
def demo_chat : String → String → ChatResult :=
  fun _ _ => ⟨"output", 1, 2, "gpt-5", "stop"⟩

/-- A concrete request naming an unknown framework id. -/
def demo_request_missing : GenerateFrameworkRequest :=
  ⟨"p1", "missing", [], "", "key", "gpt-5"⟩

/-! ## Helper lemmas -/

/-- Python `int(n * 1.3)` on a natural word count is natural division
`13 * n / 10`. -/
lemma estimate_toNat (n : ℕ) : (py_int ((n : ℚ) * 1.3)).toNat = 13 * n / 10 := by
  have h0 : (0:ℚ) ≤ (n : ℚ) * 1.3 := by positivity
  rw [py_int, if_pos h0]
  have h1 : (n : ℚ) * 1.3 = ((13 * n : ℕ) : ℚ) / ((10 : ℕ) : ℚ) := by push_cast; ring
  rw [h1, Int.floor_toNat, Nat.floor_div_nat, Nat.floor_natCast]

/-- The float sum of per-message estimates collapses to the estimate of the
total prompt word count. -/
lemma input_tokens_est_eq (msgs : List ChatMsg) :
    OpenAIClient.input_tokens_est msgs =
      13 * ((msgs.map fun m => word_count m.content).sum) / 10 := by
  unfold OpenAIClient.input_tokens_est
  rw [List.sum_map_mul_right]
  have h : (msgs.map fun m => ((word_count m.content : ℕ) : ℚ)).sum =
      (((msgs.map fun m => word_count m.content).sum : ℕ) : ℚ) := by
    rw [Nat.cast_list_sum, List.map_map]
    rfl
  rw [h, estimate_toNat]

/-- The estimated output tokens in closed form. -/
lemma output_tokens_est_eq (chunks : List (Option String)) :
    OpenAIClient.output_tokens_est chunks =
      13 * word_count (OpenAIClient.total_content chunks) / 10 := by
  unfold OpenAIClient.output_tokens_est
  rw [estimate_toNat]

/-- A block of content deltas followed by one terminal event satisfies the
terminal invariant, and the terminal event is the last one. -/
lemma deltas_then_terminal (texts : List String) (t : StreamEvent) :
    terminal_only_last (texts.map StreamEvent.content_block_delta ++ [t]) ∧
      (texts.map StreamEvent.content_block_delta ++ [t]).getLast? = some t := by
  constructor
  · intro e he
    rw [List.dropLast_concat] at he
    obtain ⟨s, _, rfl⟩ := List.mem_map.1 he
    rfl
  · exact List.getLast?_concat _

/-! ## Claims -/

/-- C1: the normalizer attaches to the terminal usage event a cost equal to
`input_tokens × input_rate + output_tokens × output_rate` for the rates the
pricing table yields for the request's model (both providers), and on the
stubbed Variant-A round-trip (`ContentDelta "Hi"`, `ContentDelta " there"`,
`UsageFinal 10 2`) under rates `{input: 0.000003, output: 0.000015}` the
attached cost is exactly `0.00006`. -/
theorem C1_normalizer_attaches_cost :
    (∀ model i o, add_cost ClaudeClient.calculate_cost model
        (StreamEvent.message_stop i o none) =
      StreamEvent.message_stop i o
        (some ((i : ℚ) * (ClaudeClient.lookup_pricing model).1 +
               (o : ℚ) * (ClaudeClient.lookup_pricing model).2))) ∧
    (∀ model i o, add_cost OpenAIClient.calculate_cost model
        (StreamEvent.message_stop i o none) =
      StreamEvent.message_stop i o
        (some ((i : ℚ) * (OpenAIClient.lookup_pricing model).1 +
               (o : ℚ) * (OpenAIClient.lookup_pricing model).2))) ∧
    ClaudeClient.lookup_pricing "claude-3-5-sonnet-20241022" = (0.000003, 0.000015) ∧
    normalize_stream ClaudeClient.calculate_cost "claude-3-5-sonnet-20241022"
        [StreamEvent.content_block_delta "Hi",
         StreamEvent.content_block_delta " there",
         StreamEvent.message_stop 10 2 none] =
      [StreamEvent.content_block_delta "Hi",
       StreamEvent.content_block_delta " there",
       StreamEvent.message_stop 10 2 (some 0.00006)] := by
  refine ⟨fun _ _ _ => rfl, fun _ _ _ => rfl, ?_, ?_⟩
  · norm_num [ClaudeClient.lookup_pricing, ClaudeClient.pricing]
  · simp only [normalize_stream, List.map_cons, List.map_nil, add_cost]
    norm_num [ClaudeClient.calculate_cost, ClaudeClient.lookup_pricing,
      ClaudeClient.pricing]

/-- C2: every event sequence either adapter can produce — any native
chunks, any failure point — has only non-terminal events before its last
position, and its last event is terminal; hence at most one terminal event
occurs, it is always last, and no usage event follows an error event. -/
theorem C2_terminal_event_last :
    (∀ messages system chunks failure,
      terminal_only_last (OpenAIClient.chat_stream messages system chunks failure) ∧
      ∃ t, (OpenAIClient.chat_stream messages system chunks failure).getLast? = some t ∧
        is_terminal t = true) ∧
    (∀ texts fi fo failure,
      terminal_only_last (ClaudeClient.chat_stream texts fi fo failure) ∧
      ∃ t, (ClaudeClient.chat_stream texts fi fo failure).getLast? = some t ∧
        is_terminal t = true) := by
  constructor
  · intro messages system chunks failure
    match failure with
    | none => exact ⟨(deltas_then_terminal _ _).1, _, (deltas_then_terminal _ _).2, rfl⟩
    | some (k, msg) =>
        exact ⟨(deltas_then_terminal _ _).1, _, (deltas_then_terminal _ _).2, rfl⟩
  · intro texts fi fo failure
    match failure with
    | none => exact ⟨(deltas_then_terminal _ _).1, _, (deltas_then_terminal _ _).2, rfl⟩
    | some (k, msg) =>
        exact ⟨(deltas_then_terminal _ _).1, _, (deltas_then_terminal _ _).2, rfl⟩

/-- C3: the canonical events reaching the transport are exactly the
upstream events, in order and in count, each transformed only by the cost
enrichment: the enrichment rewrites a usage event's cost field and leaves
every non-usage event identical, for both `chat_stream.generate` and the
found-framework branch of `generate_framework_stream.generate`. -/
theorem C3_normalizer_preserves_events :
    (∀ conv_id model upstream,
      (chat_stream_generate conv_id model upstream).filterMap frame_event =
        normalize_stream OpenAIClient.calculate_cost model upstream) ∧
    (∀ cost_fn model upstream,
      (normalize_stream cost_fn model upstream).length = upstream.length) ∧
    (∀ cost_fn model i o c,
      add_cost cost_fn model (StreamEvent.message_stop i o c) =
        StreamEvent.message_stop i o (some (cost_fn i o model))) ∧
    (∀ cost_fn model e, is_usage e = false → add_cost cost_fn model e = e) ∧
    (∀ gf adapter req fw, gf req.framework_id = some fw →
      (generate_framework_stream gf adapter req).filterMap step_event =
        normalize_stream OpenAIClient.calculate_cost req.model
          (adapter (build_system_prompt fw)
            (build_user_prompt fw req.context_documents req.user_prompt))) := by
  refine ⟨?_, ?_, fun _ _ _ _ _ => rfl, ?_, ?_⟩
  · intro conv_id model upstream
    simp only [chat_stream_generate, List.filterMap_cons, frame_event,
      List.filterMap_map]
    rw [show frame_event ∘ Frame.event = some from rfl, List.filterMap_some]
  · intro cost_fn model upstream
    simp [normalize_stream]
  · intro cost_fn model e h
    match e with
    | StreamEvent.content_block_delta s => rfl
    | StreamEvent.message_stop i o c => simp [is_usage] at h
    | StreamEvent.error m => rfl
  · intro gf adapter req fw h
    unfold generate_framework_stream
    rw [h]
    simp only [List.filterMap_cons, step_event, List.filterMap_map]
    rw [show (step_event ∘ fun e => TraceStep.frame (Frame.event e)) = some from rfl,
      List.filterMap_some]

/-- Witness for C3: the found-framework branch at a concrete loader,
adapter and request. -/
theorem C3_normalizer_preserves_events_witness :
    is_usage (StreamEvent.content_block_delta "x") = false ∧
    add_cost OpenAIClient.calculate_cost "gpt-5"
        (StreamEvent.content_block_delta "x") =
      StreamEvent.content_block_delta "x" ∧
    demo_get_framework demo_request.framework_id = some demo_framework ∧
    (generate_framework_stream demo_get_framework demo_adapter
        demo_request).filterMap step_event =
      normalize_stream OpenAIClient.calculate_cost demo_request.model
        (demo_adapter (build_system_prompt demo_framework)
          (build_user_prompt demo_framework demo_request.context_documents
            demo_request.user_prompt)) :=
  ⟨rfl,
   C3_normalizer_preserves_events.2.2.2.1 OpenAIClient.calculate_cost "gpt-5"
     (StreamEvent.content_block_delta "x") rfl,
   rfl,
   C3_normalizer_preserves_events.2.2.2.2 demo_get_framework demo_adapter
     demo_request demo_framework rfl⟩

/-- C4 counterexample: on the one-word prompt "hello" with the single
native chunk "hi", the Variant-B adapter's terminal usage event carries
`input_tokens = output_tokens = 1`, while 1.3 × the word count is 1.3 ≠ 1:
the emitted counts are the Python `int(...)` truncation of the estimate,
not the estimate itself. -/
theorem C4_counterexample :
    OpenAIClient.chat_stream [ChatMsg.mk "user" "hello"] none [some "hi"] none =
      [StreamEvent.content_block_delta "hi", StreamEvent.message_stop 1 1 none] ∧
    word_count "hello" = 1 ∧
    ((1 : ℚ) ≠ 1.3 * (1 : ℚ)) := by
  have h1 : OpenAIClient.input_tokens_est
      (OpenAIClient.full_messages none [ChatMsg.mk "user" "hello"]) = 1 := by
    rw [input_tokens_est_eq]; decide
  have h2 : OpenAIClient.output_tokens_est [some "hi"] = 1 := by
    rw [output_tokens_est_eq]; decide
  refine ⟨?_, by decide, by norm_num⟩
  show (OpenAIClient.yielded_contents [some "hi"]).map StreamEvent.content_block_delta ++
      [StreamEvent.message_stop
        (OpenAIClient.input_tokens_est
          (OpenAIClient.full_messages none [ChatMsg.mk "user" "hello"]))
        (OpenAIClient.output_tokens_est [some "hi"]) none] = _
  rw [h1, h2]
  decide

/-- C4 amended: for every clean streaming call of the Variant-B adapter,
the terminal usage event's `input_tokens` is the truncation toward zero of
1.3 × the total word count of the prompt messages, and `output_tokens` the
truncation toward zero of 1.3 × the word count of the accumulated output
text — natural division `13 * wc / 10`. -/
theorem C4_estimated_tokens_truncated :
    ∀ messages system chunks,
      (OpenAIClient.chat_stream messages system chunks none).getLast? =
        some (StreamEvent.message_stop
          (13 * ((OpenAIClient.full_messages system messages).map
            fun m => word_count m.content).sum / 10)
          (13 * word_count (OpenAIClient.total_content chunks) / 10) none) := by
  intro messages system chunks
  show ((OpenAIClient.yielded_contents chunks).map StreamEvent.content_block_delta ++
      [StreamEvent.message_stop _ _ none]).getLast? = _
  rw [List.getLast?_concat, input_tokens_est_eq, output_tokens_est_eq]

/-- C5: for any model identifier absent from the pricing table, the lookup
falls back to the designated default entry and the (total, never-throwing)
cost function computes with the default rates, for both providers. -/
theorem C5_unknown_model_fallback :
    (∀ model, model ∉ OpenAIClient.pricing.map Prod.fst →
      OpenAIClient.lookup_pricing model = OpenAIClient.lookup_pricing "gpt-5" ∧
      ∀ i o, OpenAIClient.calculate_cost i o model =
        (i : ℚ) * (OpenAIClient.lookup_pricing "gpt-5").1 +
        (o : ℚ) * (OpenAIClient.lookup_pricing "gpt-5").2) ∧
    (∀ model, model ∉ ClaudeClient.pricing.map Prod.fst →
      ClaudeClient.lookup_pricing model =
        ClaudeClient.lookup_pricing "claude-3-5-sonnet-20241022" ∧
      ∀ i o, ClaudeClient.calculate_cost i o model =
        (i : ℚ) * (ClaudeClient.lookup_pricing "claude-3-5-sonnet-20241022").1 +
        (o : ℚ) * (ClaudeClient.lookup_pricing "claude-3-5-sonnet-20241022").2) := by
  constructor
  · intro model hm
    have hf : OpenAIClient.pricing.find? (fun e => e.1 == model) = none := by
      rw [List.find?_eq_none]
      intro x hx hbeq
      exact hm (List.mem_map.mpr ⟨x, hx, eq_of_beq hbeq⟩)
    have hl : OpenAIClient.lookup_pricing model = OpenAIClient.lookup_pricing "gpt-5" := by
      unfold OpenAIClient.lookup_pricing
      rw [hf]
      rfl
    exact ⟨hl, fun i o => by unfold OpenAIClient.calculate_cost; rw [hl]⟩
  · intro model hm
    have hf : ClaudeClient.pricing.find? (fun e => e.1 == model) = none := by
      rw [List.find?_eq_none]
      intro x hx hbeq
      exact hm (List.mem_map.mpr ⟨x, hx, eq_of_beq hbeq⟩)
    have hl : ClaudeClient.lookup_pricing model =
        ClaudeClient.lookup_pricing "claude-3-5-sonnet-20241022" := by
      unfold ClaudeClient.lookup_pricing
      rw [hf]
      rfl
    exact ⟨hl, fun i o => by unfold ClaudeClient.calculate_cost; rw [hl]⟩

/-- Witness for C5: the unknown identifier "made-up-model" is priced with
the default rates by both cost functions. -/
theorem C5_unknown_model_fallback_witness :
    ("made-up-model" ∉ OpenAIClient.pricing.map Prod.fst) ∧
    OpenAIClient.calculate_cost 3 5 "made-up-model" =
      (3 : ℚ) * (OpenAIClient.lookup_pricing "gpt-5").1 +
      (5 : ℚ) * (OpenAIClient.lookup_pricing "gpt-5").2 ∧
    ("made-up-model" ∉ ClaudeClient.pricing.map Prod.fst) ∧
    ClaudeClient.calculate_cost 3 5 "made-up-model" =
      (3 : ℚ) * (ClaudeClient.lookup_pricing "claude-3-5-sonnet-20241022").1 +
      (5 : ℚ) * (ClaudeClient.lookup_pricing "claude-3-5-sonnet-20241022").2 :=
  ⟨by decide, (C5_unknown_model_fallback.1 "made-up-model" (by decide)).2 3 5,
   by decide, (C5_unknown_model_fallback.2 "made-up-model" (by decide)).2 3 5⟩

/-- Every pricing entry — and the fallback — has non-negative rates. -/
lemma openai_rates_nonneg (model : String) :
    0 ≤ (OpenAIClient.lookup_pricing model).1 ∧
      0 ≤ (OpenAIClient.lookup_pricing model).2 := by
  unfold OpenAIClient.lookup_pricing
  cases hf : OpenAIClient.pricing.find? (fun e => e.1 == model) with
  | none => norm_num
  | some e =>
      have he := List.mem_of_find?_eq_some hf
      have hall : ∀ p ∈ OpenAIClient.pricing, 0 ≤ p.2.1 ∧ 0 ≤ p.2.2 := by
        intro p hp
        simp only [OpenAIClient.pricing, List.mem_cons, List.not_mem_nil, or_false] at hp
        rcases hp with rfl | rfl | rfl | rfl | rfl | rfl | rfl | rfl | rfl <;>
          constructor <;> norm_num
      exact hall e he

/-- Every Claude pricing entry — and the fallback — has non-negative rates. -/
lemma claude_rates_nonneg (model : String) :
    0 ≤ (ClaudeClient.lookup_pricing model).1 ∧
      0 ≤ (ClaudeClient.lookup_pricing model).2 := by
  unfold ClaudeClient.lookup_pricing
  cases hf : ClaudeClient.pricing.find? (fun e => e.1 == model) with
  | none => norm_num
  | some e =>
      have he := List.mem_of_find?_eq_some hf
      have hall : ∀ p ∈ ClaudeClient.pricing, 0 ≤ p.2.1 ∧ 0 ≤ p.2.2 := by
        intro p hp
        simp only [ClaudeClient.pricing, List.mem_cons, List.not_mem_nil, or_false] at hp
        rcases hp with rfl | rfl | rfl <;> constructor <;> norm_num
      exact hall e he

/-- C6: for every model in the pricing table, the cost of zero tokens is
zero, and the cost is monotonically non-decreasing in the input-token and
output-token arguments separately, for both providers. -/
theorem C6_cost_zero_and_monotone :
    (∀ model, model ∈ OpenAIClient.pricing.map Prod.fst →
      OpenAIClient.calculate_cost 0 0 model = 0 ∧
      (∀ i i' o, i ≤ i' →
        OpenAIClient.calculate_cost i o model ≤ OpenAIClient.calculate_cost i' o model) ∧
      (∀ i o o', o ≤ o' →
        OpenAIClient.calculate_cost i o model ≤ OpenAIClient.calculate_cost i o' model)) ∧
    (∀ model, model ∈ ClaudeClient.pricing.map Prod.fst →
      ClaudeClient.calculate_cost 0 0 model = 0 ∧
      (∀ i i' o, i ≤ i' →
        ClaudeClient.calculate_cost i o model ≤ ClaudeClient.calculate_cost i' o model) ∧
      (∀ i o o', o ≤ o' →
        ClaudeClient.calculate_cost i o model ≤ ClaudeClient.calculate_cost i o' model)) := by
  constructor
  · intro model _
    refine ⟨by simp [OpenAIClient.calculate_cost], ?_, ?_⟩
    · intro i i' o hii
      unfold OpenAIClient.calculate_cost
      apply add_le_add_right
      exact mul_le_mul_of_nonneg_right (by exact_mod_cast hii) (openai_rates_nonneg model).1
    · intro i o o' hoo
      unfold OpenAIClient.calculate_cost
      apply add_le_add_left
      exact mul_le_mul_of_nonneg_right (by exact_mod_cast hoo) (openai_rates_nonneg model).2
  · intro model _
    refine ⟨by simp [ClaudeClient.calculate_cost], ?_, ?_⟩
    · intro i i' o hii
      unfold ClaudeClient.calculate_cost
      apply add_le_add_right
      exact mul_le_mul_of_nonneg_right (by exact_mod_cast hii) (claude_rates_nonneg model).1
    · intro i o o' hoo
      unfold ClaudeClient.calculate_cost
      apply add_le_add_left
      exact mul_le_mul_of_nonneg_right (by exact_mod_cast hoo) (claude_rates_nonneg model).2

/-- Witness for C6: the table models "gpt-4o" and
"claude-3-opus-20240229" at concrete token counts. -/
theorem C6_cost_zero_and_monotone_witness :
    ("gpt-4o" ∈ OpenAIClient.pricing.map Prod.fst) ∧
    OpenAIClient.calculate_cost 0 0 "gpt-4o" = 0 ∧
    OpenAIClient.calculate_cost 1 2 "gpt-4o" ≤ OpenAIClient.calculate_cost 3 2 "gpt-4o" ∧
    OpenAIClient.calculate_cost 1 2 "gpt-4o" ≤ OpenAIClient.calculate_cost 1 4 "gpt-4o" ∧
    ("claude-3-opus-20240229" ∈ ClaudeClient.pricing.map Prod.fst) ∧
    ClaudeClient.calculate_cost 0 0 "claude-3-opus-20240229" = 0 ∧
    ClaudeClient.calculate_cost 1 2 "claude-3-opus-20240229" ≤
      ClaudeClient.calculate_cost 3 2 "claude-3-opus-20240229" ∧
    ClaudeClient.calculate_cost 1 2 "claude-3-opus-20240229" ≤
      ClaudeClient.calculate_cost 1 4 "claude-3-opus-20240229" :=
  ⟨by decide,
   (C6_cost_zero_and_monotone.1 "gpt-4o" (by decide)).1,
   (C6_cost_zero_and_monotone.1 "gpt-4o" (by decide)).2.1 1 3 2 (by decide),
   (C6_cost_zero_and_monotone.1 "gpt-4o" (by decide)).2.2 1 2 4 (by decide),
   by decide,
   (C6_cost_zero_and_monotone.2 "claude-3-opus-20240229" (by decide)).1,
   (C6_cost_zero_and_monotone.2 "claude-3-opus-20240229" (by decide)).2.1 1 3 2 (by decide),
   (C6_cost_zero_and_monotone.2 "claude-3-opus-20240229" (by decide)).2.2 1 2 4 (by decide)⟩

/-- C7: assembling with zero documents yields the literal no-context
placeholder, and an instruction of 50 or more characters never gets the
guiding-questions section appended, even when the template provides
questions. -/
theorem C7_prompt_assembler :
    assembled_context [] = "No context documents provided." ∧
    (∀ f docs instr, 50 ≤ instr.length →
      build_user_prompt f docs instr =
        String.intercalate "\n" ["# Context Documents", assembled_context docs, "",
          "# Task", resolved_instruction f instr]) := by
  refine ⟨rfl, ?_⟩
  intro f docs instr h
  simp only [build_user_prompt, user_prompt_parts]
  rw [if_neg fun hc => Nat.not_lt.mpr h hc.1]

/-- Witness for C7: a 54-character instruction with a question-bearing
template gets no questions section. -/
theorem C7_prompt_assembler_witness :
    50 ≤ ("Write a full PRD for the new search feature of the app").length ∧
    build_user_prompt demo_framework []
        "Write a full PRD for the new search feature of the app" =
      String.intercalate "\n" ["# Context Documents", assembled_context [], "",
        "# Task", resolved_instruction demo_framework
          "Write a full PRD for the new search feature of the app"] :=
  ⟨by decide, C7_prompt_assembler.2 demo_framework []
    "Write a full PRD for the new search feature of the app" (by decide)⟩

/-- C8 counterexample: a concrete framework-generation streaming call
(known framework, adapter emitting a delta then usage) whose frame
sequence contains no correlation-identifier frame at all; its first frame
is the first normalized provider event, refuting the claim that the first
frame of every generation-style call carries a correlation identifier. -/
theorem C8_counterexample :
    (generate_framework_stream demo_get_framework demo_adapter
        demo_request).filterMap step_conv_id = [] ∧
    ((generate_framework_stream demo_get_framework demo_adapter
        demo_request).filterMap step_frame).head? =
      some (Frame.event (StreamEvent.content_block_delta "x")) := by
  exact ⟨by decide, by decide⟩

/-- The `filterMap` of a constantly-`none` function is empty. -/
lemma filterMap_const_none {α β : Type} (l : List α) :
    l.filterMap (fun _ => (none : Option β)) = [] := by
  induction l with
  | nil => rfl
  | cons a l ih => simp [List.filterMap_cons]

/-- C8 amended: the first frame of every `/chat/stream` call is the
conversation-id frame carrying the caller-supplied (when truthy) or
freshly generated identifier, before any canonical event; the
framework-generation stream emits no correlation-identifier frame at all. -/
theorem C8_correlation_id_first :
    (∀ provided fresh model upstream,
      (chat_stream_generate (resolve_conversation_id provided fresh) model
          upstream).head? =
        some (Frame.conversation_id (resolve_conversation_id provided fresh))) ∧
    (∀ gf adapter req,
      (generate_framework_stream gf adapter req).filterMap step_conv_id = []) := by
  constructor
  · intro provided fresh model upstream
    rfl
  · intro gf adapter req
    unfold generate_framework_stream
    cases gf req.framework_id with
    | none => rfl
    | some fw =>
        simp only [List.filterMap_cons, step_conv_id, List.filterMap_map]
        rw [show (step_conv_id ∘ fun e => TraceStep.frame (Frame.event e)) =
          (fun _ => none) from rfl]
        exact filterMap_const_none _

/-- C9: when the framework id is unknown, both the streaming and the
non-streaming generation endpoints surface the distinct template-not-found
error and perform no provider work: the stream is the single error frame
with no client construction and no provider call in its trace, and the
non-streaming endpoint returns the 404 error with an empty effect trace. -/
theorem C9_template_not_found_fail_fast :
    ∀ gf adapter chat req, gf req.framework_id = none →
      generate_framework_stream gf adapter req =
        [TraceStep.frame (Frame.event (StreamEvent.error
          ("Framework " ++ req.framework_id ++ " not found")))] ∧
      TraceStep.client_init ∉ generate_framework_stream gf adapter req ∧
      TraceStep.provider_call ∉ generate_framework_stream gf adapter req ∧
      (generate_framework gf chat req).1 = [] ∧
      (generate_framework gf chat req).2 =
        Except.error (404, "Framework '" ++ req.framework_id ++ "' not found") := by
  intro gf adapter chat req h
  have hs : generate_framework_stream gf adapter req =
      [TraceStep.frame (Frame.event (StreamEvent.error
        ("Framework " ++ req.framework_id ++ " not found")))] := by
    unfold generate_framework_stream
    rw [h]
  refine ⟨hs, ?_, ?_, ?_, ?_⟩
  · rw [hs]; simp
  · rw [hs]; simp
  · unfold generate_framework; rw [h]
  · unfold generate_framework; rw [h]

/-- Witness for C9: the request for the unknown id "missing" against the
concrete loader. -/
theorem C9_template_not_found_fail_fast_witness :
    demo_get_framework demo_request_missing.framework_id = none ∧
    generate_framework_stream demo_get_framework demo_adapter demo_request_missing =
      [TraceStep.frame (Frame.event (StreamEvent.error
        ("Framework " ++ demo_request_missing.framework_id ++ " not found")))] ∧
    TraceStep.client_init ∉
      generate_framework_stream demo_get_framework demo_adapter demo_request_missing ∧
    TraceStep.provider_call ∉
      generate_framework_stream demo_get_framework demo_adapter demo_request_missing ∧
    (generate_framework demo_get_framework demo_chat demo_request_missing).1 = [] ∧
    (generate_framework demo_get_framework demo_chat demo_request_missing).2 =
      Except.error (404,
        "Framework '" ++ demo_request_missing.framework_id ++ "' not found") := by
  have h := C9_template_not_found_fail_fast demo_get_framework demo_adapter demo_chat
    demo_request_missing rfl
  exact ⟨rfl, h.1, h.2.1, h.2.2.1, h.2.2.2.1, h.2.2.2.2⟩

/-- The yielded contents are exactly as many as the truthy chunks. -/
lemma yielded_contents_length (chunks : List (Option String)) :
    (OpenAIClient.yielded_contents chunks).length = chunks.countP chunk_truthy := by
  induction chunks with
  | nil => rfl
  | cons c cs ih =>
      cases c with
      | none =>
          simpa [OpenAIClient.yielded_contents, List.filterMap_cons, List.countP_cons,
            chunk_truthy] using ih
      | some s =>
          by_cases hs : s = ""
          · subst hs
            simpa [OpenAIClient.yielded_contents, List.filterMap_cons,
              List.countP_cons, chunk_truthy] using ih
          · simpa [OpenAIClient.yielded_contents, List.filterMap_cons,
              List.countP_cons, chunk_truthy, bne, hs] using ih

/-- Every yielded content string is non-empty. -/
lemma yielded_all_nonempty (chunks : List (Option String)) :
    ∀ s ∈ OpenAIClient.yielded_contents chunks, (s != "") = true := by
  intro s hs
  rw [OpenAIClient.yielded_contents, List.mem_filterMap] at hs
  obtain ⟨c, _, hc⟩ := hs
  cases c with
  | none => simp at hc
  | some t =>
      by_cases ht : t = ""
      · subst ht
        simp at hc
      · simp [ht] at hc
        subst hc
        simpa [bne] using ht

/-- C10: every content delta the Variant-B adapter emits carries non-empty
text (on every run, failing or not); on a clean run the number of content
events equals the number of truthy native chunks; and on the concrete
chunk list `[none, some "", some "a"]` only one content event arises from
three native chunks. -/
theorem C10_content_deltas_nonempty :
    (∀ messages system chunks failure,
      (OpenAIClient.chat_stream messages system chunks failure).all
        content_nonempty = true) ∧
    (∀ messages system chunks,
      (OpenAIClient.chat_stream messages system chunks none).countP is_content =
        chunks.countP chunk_truthy) ∧
    (OpenAIClient.chat_stream [] none [none, some "", some "a"] none).countP
      is_content = 1 ∧
    ([none, some "", some "a"] : List (Option String)).length = 3 := by
  have hall : ∀ chunks : List (Option String),
      ((OpenAIClient.yielded_contents chunks).map
        StreamEvent.content_block_delta).all content_nonempty = true := by
    intro chunks
    rw [List.all_eq_true]
    intro e he
    obtain ⟨s, hs, rfl⟩ := List.mem_map.1 he
    exact yielded_all_nonempty chunks s hs
  have hcount : ∀ messages system chunks,
      (OpenAIClient.chat_stream messages system chunks none).countP is_content =
        chunks.countP chunk_truthy := by
    intro messages system chunks
    show ((OpenAIClient.yielded_contents chunks).map
      StreamEvent.content_block_delta ++ [StreamEvent.message_stop _ _ none]).countP
        is_content = _
    rw [List.countP_append, List.countP_map]
    have h1 : (OpenAIClient.yielded_contents chunks).countP
        (is_content ∘ StreamEvent.content_block_delta) =
        (OpenAIClient.yielded_contents chunks).length :=
      List.countP_eq_length.mpr fun a _ => rfl
    rw [h1, yielded_contents_length]
    simp [List.countP_cons, is_content]
  refine ⟨?_, hcount, ?_, by decide⟩
  · intro messages system chunks failure
    match failure with
    | none =>
        show ((OpenAIClient.yielded_contents chunks).map
          StreamEvent.content_block_delta ++
            [StreamEvent.message_stop _ _ none]).all content_nonempty = true
        rw [List.all_append, hall chunks]
        rfl
    | some (k, msg) =>
        show ((OpenAIClient.yielded_contents (chunks.take k)).map
          StreamEvent.content_block_delta ++
            [StreamEvent.error msg]).all content_nonempty = true
        rw [List.all_append, hall (chunks.take k)]
        rfl
  · rw [hcount [] none [none, some "", some "a"]]
    decide

end PmSidecar
